import Mathlib

set_option maxRecDepth 100000
set_option maxHeartbeats 1000000

/-
Verification development for the chat retrieval/reasoning orchestrator of the
prodcrack repository (src/app/api/ask/route.ts, the session-memory-aware
variant, together with its collaborators in src/lib).  The TypeScript source
is embedded shallowly: JavaScript strings are Lean `String`s, JavaScript
arrays are Lean `List`s, the persistent store is an explicit `Db` record, and
every external collaborator (LLM calls, embeddings, auth) is an explicit
oracle parameter.  Floating-point embedding similarity is abstracted by an
oracle-supplied integer score, since no verified property depends on the
numeric values, only on the fact that reranking permutes the candidate list.
-/

namespace ProdCrack

/-! ### JavaScript-level string primitives

The route code relies on plain JavaScript string operations
(`trim`, `toLowerCase`, `slice`, `split`, `includes`, `startsWith`) and on
insertion-ordered `Set`/`Map` semantics.  They are modelled explicitly over
`List Char` so that every definition is executable and kernel-reducible. -/

/-- Character of the single-quote (code 39), written numerically. -/
def quoteChar : Char := Char.ofNat 39

/-- Character of the double-quote (code 34), written numerically. -/
def dquoteChar : Char := Char.ofNat 34

/-- JavaScript `String.prototype.trim` on the character list. -/
def trimChars (l : List Char) : List Char :=
  ((l.dropWhile Char.isWhitespace).reverse.dropWhile Char.isWhitespace).reverse

/-- JavaScript `s.trim()`. -/
def jsTrim (s : String) : String :=
  String.mk (trimChars s.data)

/-- JavaScript `s.toLowerCase()` (ASCII case mapping, which is all the route
uses). -/
def jsToLower (s : String) : String :=
  String.mk (s.data.map Char.toLower)

/-- JavaScript `s.slice(0, n)`. -/
def jsSlice (s : String) (n : Nat) : String :=
  String.mk (s.data.take n)

/-- JavaScript `s.slice(n)`. -/
def jsDrop (s : String) (n : Nat) : String :=
  String.mk (s.data.drop n)

/-- Does the needle occur as a leading segment of the haystack? -/
def headChars : List Char → List Char → Bool
  | [], _ => true
  | _ :: _, [] => false
  | a :: as, b :: bs => a == b && headChars as bs

/-- Does the needle occur as a contiguous segment of the haystack? -/
def subChars (needle : List Char) : List Char → Bool
  | [] => needle.isEmpty
  | b :: bs => headChars needle (b :: bs) || subChars needle bs

/-- JavaScript `haystack.includes(needle)`. -/
def strIncludes (haystack needle : String) : Bool :=
  subChars needle.data haystack.data

/-- JavaScript `s.startsWith(p)`. -/
def strStartsWith (s p : String) : Bool :=
  headChars p.data s.data

/-- JavaScript `s.split(' ')` (single-space separator). -/
def splitSpAux : List Char → List Char → List String
  | current, [] => [String.mk current.reverse]
  | current, c :: rest =>
    if c == ' ' then String.mk current.reverse :: splitSpAux [] rest
    else splitSpAux (c :: current) rest

/-- JavaScript `s.split(' ')`. -/
def splitOnSpace (s : String) : List String :=
  splitSpAux [] s.data

/-- Insertion into a JavaScript `Set` of strings (insertion order kept,
duplicates dropped). -/
def jsSetAdd (s : List String) (x : String) : List String :=
  if s.contains x then s else s ++ [x]

/-- `Array.from(new Set(xs))`: deduplication keeping the first occurrence of
each element, in order. -/
def jsDedup (xs : List String) : List String :=
  xs.foldl jsSetAdd []

/-- JavaScript string spread `[...s]`: the string split into one-character
strings. -/
def jsStringSpread (s : String) : List String :=
  s.data.map (fun c => String.mk [c])

/-- Stable insertion of an element into a list sorted by descending key, the
new element going after existing elements of equal key.  This matches the
stable `Array.prototype.sort` with comparator `(a, b) => key b - key a`. -/
def insertDescBy {α : Type} (key : α → Int) (x : α) : List α → List α
  | [] => [x]
  | y :: ys => if key x < key y then y :: insertDescBy key x ys else x :: y :: ys

/-- Stable sort by descending key, matching the stable JavaScript
`Array.prototype.sort` with comparator `(a, b) => key b - key a`. -/
def stableSortDesc {α : Type} (key : α → Int) : List α → List α
  | [] => []
  | x :: xs => insertDescBy key x (stableSortDesc key xs)

/-! ### Data model (src/app/api/ask/route.ts lines 499-535) -/

/-- Open metadata bag of an entity row, restricted to the fields the chat
core reads (`tags`, `keywords`, `snippet`); `none` models an absent or
non-array/non-string field, which the source guards with `Array.isArray` /
`typeof` checks. -/
structure EntityMeta where
  tags : Option (List String)
  keywords : Option (List String)
  snippet : Option String
deriving DecidableEq

/-- Row of `repository_entities` as selected by the chat route
(`id,entity_name,entity_type,file_path,metadata`). -/
structure EntityRow where
  id : String
  entity_name : String
  entity_type : String
  file_path : String
  metadata : Option EntityMeta
deriving DecidableEq

/-- Row of `code_graph` as selected by the chat route
(`source_entity_id,target_entity_id,relationship_type`). -/
structure GraphRow where
  source_entity_id : String
  target_entity_id : String
  relationship_type : String
deriving DecidableEq

/-- One chat-history item. -/
structure ChatHistoryItem where
  role : String
  content : String
deriving DecidableEq

/-! ### Pure lexical helpers (route.ts lines 631-775) -/

/-- `isAlphaNum` (route.ts 631-637): ASCII digit, upper or lower letter. -/
def isAlphaNum (c : Char) : Bool :=
  let code := c.toNat
  (48 ≤ code && code ≤ 57) || (65 ≤ code && code ≤ 90) || (97 ≤ code && code ≤ 122)

/-- Accumulator loop of `tokenizeWords` (route.ts 639-653); `current` is kept
reversed. -/
def tokenizeAux (minLength : Nat) : List Char → List Char → List String
  | current, [] =>
    if minLength ≤ current.length then [String.mk current.reverse] else []
  | current, ch :: rest =>
    if isAlphaNum ch || ch == '_' then tokenizeAux minLength (ch.toLower :: current) rest
    else if minLength ≤ current.length then
      String.mk current.reverse :: tokenizeAux minLength [] rest
    else tokenizeAux minLength [] rest

/-- `tokenizeWords` (route.ts 639-653): split on any non-alphanumeric,
non-underscore boundary, lower-casing, dropping tokens shorter than
`minLength`. -/
def tokenizeWords (value : String) (minLength : Nat := 1) : List String :=
  tokenizeAux minLength [] value.data

/-- `normalizeText` (route.ts 655-658). -/
def normalizeText (value : String) : String :=
  jsTrim (String.intercalate " " (tokenizeWords value 1))

/-- `containsAnyPhrase` (route.ts 660-668): word-boundary phrase containment
over normalized text. -/
def containsAnyPhrase (value : String) (phrases : List String) : Bool :=
  let normalized := " " ++ normalizeText value ++ " "
  phrases.any (fun phrase =>
    let p := normalizeText phrase
    if p == "" then false else strIncludes normalized (" " ++ p ++ " "))

/-- `normalizeKeywords` (route.ts 670-677) on an already string-typed array;
a non-array input behaves as `[]`, which the caller obtains by passing `[]`. -/
def normalizeKeywords (value : List String) : List String :=
  (((value.map (fun x => jsToLower (jsTrim x))).filter (fun x => 1 < x.length))).take 20

/-- `extractKeywordsFromQuestion` (route.ts 679-681). -/
def extractKeywordsFromQuestion (question : String) : List String :=
  (jsDedup (tokenizeWords question 3)).take 12

/-- `GENERIC_QUERY_WORDS` (route.ts 683-686). -/
def GENERIC_QUERY_WORDS : List String :=
  ["explain", "flow", "flows", "system", "how", "what", "works", "work", "it", "app", "application",
   "overview", "details", "about", "feature", "features", "logic", "process"]

/-- `DOMAIN_STOPWORDS` (route.ts 688-695). -/
def DOMAIN_STOPWORDS : List String :=
  ["src", "app", "apps", "lib", "libs", "api", "utils", "helper", "helpers", "common", "shared",
   "index", "main", "service", "services", "controller", "controllers", "component", "components",
   "module", "modules", "hook", "hooks", "model", "models", "types", "type", "route", "routes",
   "view", "views", "page", "pages", "client", "server", "public", "private", "core", "feature",
   "features", "impl", "implementation", "test", "tests", "spec", "config", "configs",
   "js", "jsx", "ts", "tsx", "json"]

/-- `extractDomainTokensFromEntity` (route.ts 697-703). -/
def extractDomainTokensFromEntity (entity : EntityRow) : List String :=
  let raw := jsToLower (entity.entity_name ++ " " ++ entity.file_path)
  (((tokenizeWords raw 1).filter (fun token => 3 ≤ token.length)).filter
      (fun token => !DOMAIN_STOPWORDS.contains token)).filter
    (fun token => !GENERIC_QUERY_WORDS.contains token)

/-- `extractAnchorTerms` (route.ts 705-715). -/
def extractAnchorTerms (anchors : List String) : List String :=
  (jsDedup ((((anchors.map (fun a => tokenizeWords (jsToLower a) 1)).flatten).filter
        (fun token => 3 ≤ token.length)).filter
      (fun token => !GENERIC_QUERY_WORDS.contains token) |>.filter
    (fun token => token != "flow" && token != "lifecycle"))).take 20

/-- `buildRetrievalKeywords` (route.ts 717-729), the four-parameter function
as defined in the source. -/
def buildRetrievalKeywords (base expanded anchorTerms dominantDomains : List String) :
    List String :=
  let raw := ((base ++ expanded ++ anchorTerms ++ dominantDomains).map
      (fun k => jsTrim (jsToLower k))).filter (fun k => k != "")
  ((jsDedup raw).filter (fun k => !GENERIC_QUERY_WORDS.contains k)).take 28

/-- Embedding of the call site at route.ts 1591-1597: the four-parameter
`buildRetrievalKeywords` is invoked with five arguments, `refinedQuestion`
first.  Under JavaScript call semantics the parameters bind to the first four
arguments and the trailing `dominantDomains` argument is ignored, so the
question string itself becomes `base` and is spread into one-character
strings by `[...base, ...]`. -/
def retrievalKeywordsAtCallSite (refinedQuestion : String)
    (finalGojoKeywords expandedKeywords anchorTerms _dominantDomains : List String) :
    List String :=
  buildRetrievalKeywords (jsStringSpread refinedQuestion) finalGojoKeywords
    expandedKeywords anchorTerms

/-- `scoreEntityAgainstKeywords` (route.ts 731-746). -/
def scoreEntityAgainstKeywords (entity : EntityRow) (keywords : List String) : Nat :=
  if keywords.isEmpty then 0 else
  let metaKeywords := match entity.metadata with
    | some m => match m.keywords with
      | some ks => String.intercalate " " ks
      | none => ""
    | none => ""
  let metaTags := match entity.metadata with
    | some m => match m.tags with
      | some ts => String.intercalate " " ts
      | none => ""
    | none => ""
  let haystack := jsToLower (entity.entity_name ++ " " ++ entity.entity_type ++ " " ++
    entity.file_path ++ " " ++ metaKeywords ++ " " ++ metaTags)
  keywords.foldl (fun score keyword =>
    let k := jsTrim (jsToLower keyword)
    if k != "" && strIncludes haystack k then score + 1 else score) 0

/-- `sanitizeForLike` (route.ts 748-756). -/
def sanitizeForLike (value : String) : String :=
  let out := String.mk (value.data.filter (fun ch =>
    !(ch == '%' || ch == '_' || ch == quoteChar || ch == dquoteChar || ch == ',')))
  jsSlice (jsTrim out) 40

/-- `compactText` (route.ts 758-760). -/
def compactText (value : String) (max : Nat := 220) : String :=
  jsSlice (normalizeText value) max

/-- `buildChatHistorySummary` (route.ts 762-768). -/
def buildChatHistorySummary (history : List ChatHistoryItem) : String :=
  jsSlice (String.intercalate " | " ((history.drop (history.length - 6)).map
    (fun h => h.role ++ ": " ++ compactText h.content 160))) 1200

/-- `getEntitySnippet` (route.ts 770-775). -/
def getEntitySnippet (entity : EntityRow) : String :=
  let raw := match entity.metadata with
    | some m => m.snippet.getD ""
    | none => ""
  compactText raw 200

/-! ### Deterministic fallback answer builder (route.ts 777-904) -/

/-- `inferStageFromEntity` (route.ts 777-786). -/
def inferStageFromEntity (entity : EntityRow) : String :=
  let text := jsToLower (entity.entity_name ++ " " ++ entity.entity_type)
  if containsAnyPhrase text ["route", "api", "controller", "handler", "entry", "submit", "start",
      "create", "select", "choose", "book", "checkout", "login", "sign"] then "initiation"
  else if containsAnyPhrase text ["validate", "verify", "auth", "permission", "guard", "check",
      "policy", "rule"] then "validation"
  else if containsAnyPhrase text ["service", "process", "apply", "calculate", "execute", "reserve",
      "payment", "charge", "update", "compute"] then "processing"
  else if containsAnyPhrase text ["model", "store", "save", "persist", "state", "session", "token",
      "record", "cache"] then "state_update"
  else if containsAnyPhrase text ["response", "result", "success", "failed", "notify", "redirect",
      "complete", "status"] then "outcome"
  else if entity.entity_type == "dependency" then "integration"
  else "processing"

/-- Result record of `inferAuthCapabilities`. -/
structure AuthCaps where
  credentialSignIn : Bool
  socialGoogle : Bool
  socialGithub : Bool
  signUp : Bool
  signOut : Bool
  session : Bool
  validation : Bool
  redirect : Bool
deriving DecidableEq

/-- `inferAuthCapabilities` (route.ts 788-804).  Note that the scanned corpus
is built from `entity_name`, `entity_type` and `file_path` only; metadata
tags and keywords are not consulted. -/
def inferAuthCapabilities (entities : List EntityRow) : AuthCaps :=
  let corpus := jsToLower (String.intercalate " " (entities.map
    (fun e => e.entity_name ++ " " ++ e.entity_type ++ " " ++ e.file_path)))
  { credentialSignIn := containsAnyPhrase corpus
      ["signin", "sign in", "login", "password", "credential", "email"]
    socialGoogle := containsAnyPhrase corpus ["google", "oauth"]
    socialGithub := containsAnyPhrase corpus ["github"]
    signUp := containsAnyPhrase corpus ["signup", "sign up", "register"]
    signOut := containsAnyPhrase corpus ["signout", "sign out", "logout"]
    session := containsAnyPhrase corpus ["session", "token", "jwt", "cookie"]
    validation := containsAnyPhrase corpus
      ["validate", "verify", "bcrypt", "auth", "permission", "guard"]
    redirect := containsAnyPhrase corpus ["redirect", "navigate", "route"] }

/-- `buildDeterministicFallbackAnswer` (route.ts 806-904): the pure, local
fallback narrative generator. -/
def buildDeterministicFallbackAnswer (question : String) (entities : List EntityRow)
    (relationships : List GraphRow) : String :=
  if entities.isEmpty then
    "I could not find enough indexed structure for this question yet. Re-run ingestion to refresh the structure index."
  else
    let queryKeywords := extractKeywordsFromQuestion question
    let scored := stableSortDesc (fun x => (x.2 : Int))
      ((entities.map (fun entity => (entity, scoreEntityAgainstKeywords entity queryKeywords))).filter
        (fun x => 0 < x.2))
    if scored.isEmpty then
      "I cannot confidently confirm this specific flow from the currently indexed structure for \"" ++
        compactText question 70 ++
        "\". The repository index needs stronger matching evidence for this question before I can describe the behavior reliably."
    else
      let anchorIds := jsDedup ((scored.take 18).map (fun x => x.1.id))
      let relatedEdges := relationships.filter (fun edge =>
        anchorIds.contains edge.source_entity_id || anchorIds.contains edge.target_entity_id)
      let relatedIds := anchorIds.foldl jsSetAdd
        ((relatedEdges.take 180).foldl (fun s edge =>
          jsSetAdd (jsSetAdd s edge.source_entity_id) edge.target_entity_id) [])
      let relatedEntities := (entities.filter (fun entity => relatedIds.contains entity.id)).take 40
      let q := jsToLower question
      let isAuthQuestion := containsAnyPhrase q
        ["auth", "login", "sign in", "signin", "signup", "sign up", "oauth", "session", "token"]
      let auth := inferAuthCapabilities relatedEntities
      if isAuthQuestion then
        let signinOptions :=
          (if auth.credentialSignIn then ["credentials-based sign-in"] else []) ++
          (if auth.socialGoogle then ["Google sign-in"] else []) ++
          (if auth.socialGithub then ["GitHub sign-in"] else [])
        let steps :=
          (if 0 < signinOptions.length then
            ["Sign-in options visible in the implemented flow: " ++
              String.intercalate ", " signinOptions ++ "."]
          else
            ["The auth flow is present, but specific sign-in options are not strongly identifiable from indexed structure yet."]) ++
          (if auth.validation then
            ["After sign-in is submitted, the system validates identity before granting access."]
          else []) ++
          (if auth.session then
            ["On success, an authenticated session is established so users can access protected areas."]
          else []) ++
          (if auth.redirect then
            ["Users are then moved into the main product experience after successful authentication."]
          else []) ++
          (if auth.signOut then ["Sign-out is supported and clears active access."] else [])
        let confidence :=
          if 20 ≤ relatedEdges.length then
            "Confidence is high because multiple connected auth-related relationships were found."
          else
            "Confidence is moderate because the auth flow is inferred from partial but relevant structural evidence."
        String.intercalate " " steps ++ " " ++ confidence
      else
        let stages := relatedEntities.map inferStageFromEntity
        let steps :=
          (if 0 < stages.count "initiation" then
            ["1) Users initiate the flow through a clear entry action in the product experience."]
          else []) ++
          (if 0 < stages.count "validation" then
            ["2) The system runs validation/authorization checks before moving forward."]
          else []) ++
          (if 0 < stages.count "processing" then
            ["3) Core business processing executes the requested operation."]
          else []) ++
          (if 0 < stages.count "state_update" then
            ["4) Application state and records are updated to reflect the result."]
          else []) ++
          (if 0 < stages.count "integration" then
            ["5) External/internal integrations are involved where required."]
          else []) ++
          (if 0 < stages.count "outcome" then
            ["6) The user receives the final outcome and next-step status."]
          else [])
        let steps := if steps.isEmpty then
            ["The flow appears to follow a standard request -> validation -> processing -> outcome pattern."]
          else steps
        let confidence :=
          if 20 ≤ relatedEdges.length then
            "Confidence is high because the flow is supported by multiple connected structural relationships."
          else
            "Confidence is moderate because the flow is inferred from partial but relevant structural relationships."
        String.intercalate " " steps ++ " " ++ confidence

/-- `sanitizeProductAnswer` (route.ts 906-923): the content firewall.  The
path-like check runs on tokens of the already-normalized text. -/
def sanitizeProductAnswer (answer fallback : String) : String :=
  let compact := normalizeText answer
  if compact == "" then fallback
  else
    let tokens := (splitOnSpace compact).filter (fun t => t != "")
    let hasPathLike := tokens.any (fun token => strIncludes token "/" && 3 < token.length)
    let looksTechnical := hasPathLike || containsAnyPhrase compact
      ["import", "module", "file", "path", "controller", "entity", "graph", "relationship",
       "function", "class", "dependency", "snippet", "tsx", "jsx", "py", "java"]
    if looksTechnical then fallback else compact

/-! ### Persistent store model

The Supabase tables touched by the chat route, modelled as in-memory lists:
rows come back in list order, `.limit(n)` is `take n`, `.eq`/`.in` are
filters, and `ilike '%p%'` is case-insensitive substring matching (the
pattern has already had wildcard characters stripped by `sanitizeForLike`). -/

/-- Row of `chat_session_memory`. -/
structure MemoryRow where
  session_id : String
  repository_id : String
  entity_id : String
  weight : Int
  last_used : String
deriving DecidableEq

/-- The persistent store visible to the chat route.  Entity and graph rows
are stored together with their `repository_id` column (the route selects a
projection without it). -/
structure Db where
  members : List (String × String)
  repositories : List (String × String)
  entities : List (String × EntityRow)
  graph : List (String × GraphRow)
  sessionMemory : List MemoryRow
deriving DecidableEq

/-- Externally observable pipeline actions, recorded in call order.  Used to
state the short-circuit and no-pipeline-work properties. -/
inductive Event where
  | frontdeskCall
  | classifyCall
  | domainScan
  | memoryRead
  | expandCall
  | anchorCall
  | entityQuery
  | graphQuery
  | rerankEmbed
  | reasoningCall
  | translateCall
  | memoryWrite
  | backfill
deriving DecidableEq

/-- JavaScript `Map.set` on an association list keyed by entity id: replaces
the value in place at an existing key, appends otherwise. -/
def mapSet (m : List (String × EntityRow)) (k : String) (v : EntityRow) :
    List (String × EntityRow) :=
  if m.any (fun p => p.1 == k) then m.map (fun p => if p.1 == k then (k, v) else p)
  else m ++ [(k, v)]

/-- `retrieveEntitiesByIds` (route.ts 1133-1142); the second component lists
the queries actually issued (none for an empty id list). -/
def retrieveEntitiesByIdsT (db : Db) (repositoryId : String) (ids : List String) :
    List EntityRow × List Event :=
  if ids.isEmpty then ([], [])
  else
    (((db.entities.filter (fun p =>
        p.1 == repositoryId && (ids.take 80).contains p.2.id)).map (fun p => p.2)),
      [Event.entityQuery])

/-- Does an entity row match the sanitized `ilike` pattern on name or path? -/
def ilikeRow (repositoryId like : String) (p : String × EntityRow) : Bool :=
  p.1 == repositoryId &&
    (strIncludes (jsToLower p.2.entity_name) (jsToLower like) ||
     strIncludes (jsToLower p.2.file_path) (jsToLower like))

/-- `retrieveEntitiesByKeywords` (route.ts 1105-1124): one query per usable
keyword among the first ten, results unioned by entity id with first
occurrence winning the position. -/
def retrieveEntitiesByKeywordsT (db : Db) (repositoryId : String) (keywords : List String) :
    List EntityRow × List Event :=
  let r := (keywords.take 10).foldl (fun acc keyword =>
    let like := sanitizeForLike keyword
    if like == "" then acc
    else
      let rows := ((db.entities.filter (ilikeRow repositoryId like)).take 40).map (fun p => p.2)
      (rows.foldl (fun m row => mapSet m row.id row) acc.1, acc.2 ++ [Event.entityQuery]))
    (([] : List (String × EntityRow)), ([] : List Event))
  (r.1.map (fun p => p.2), r.2)

/-- `scoreForSeedRanking` (route.ts 1126-1131). -/
def scoreForSeedRanking (entity : EntityRow) (retrievalKeywords dominantDomains : List String)
    (inSession : Bool) : Nat :=
  scoreEntityAgainstKeywords entity retrievalKeywords * 2 +
    scoreEntityAgainstKeywords entity dominantDomains + (if inSession then 1 else 0)

/-- `expandGraph` (route.ts 1144-1169): one hop of edges in both directions
from the seed set, then a re-fetch of every touched endpoint.  An empty seed
set returns empty results without touching the store. -/
def expandGraphT (db : Db) (repositoryId : String) (seedIds : List String) :
    (List EntityRow × List GraphRow) × List Event :=
  if seedIds.isEmpty then (([], []), [])
  else
    let outA := ((db.graph.filter (fun p =>
      p.1 == repositoryId && seedIds.contains p.2.source_entity_id)).take 300).map (fun p => p.2)
    let outB := ((db.graph.filter (fun p =>
      p.1 == repositoryId && seedIds.contains p.2.target_entity_id)).take 300).map (fun p => p.2)
    let relationships := outA ++ outB
    let ids := relationships.foldl (fun s edge =>
      jsSetAdd (jsSetAdd s edge.source_entity_id) edge.target_entity_id) (jsDedup seedIds)
    let fetched := retrieveEntitiesByIdsT db repositoryId ids
    ((fetched.1, relationships), [Event.graphQuery, Event.graphQuery] ++ fetched.2)

/-- `readSessionMemoryEntities` (route.ts 992-1005): entity ids of the
session, ordered by weight descending, capped at 30. -/
def readSessionMemoryT (db : Db) (sessionId repositoryId : String) :
    List String × List Event :=
  (((stableSortDesc (fun r => r.weight) (db.sessionMemory.filter (fun r =>
      r.session_id == sessionId && r.repository_id == repositoryId))).take 30).map
    (fun r => r.entity_id), [Event.memoryRead])

/-- Key predicate of `chat_session_memory`: one row per
`(sessionId, repositoryId, entityId)`. -/
def memKeyMatch (sessionId repositoryId entityId : String) (r : MemoryRow) : Bool :=
  r.session_id == sessionId && r.repository_id == repositoryId && r.entity_id == entityId

/-- Postgres upsert `onConflict: session_id,repository_id,entity_id`:
replace the row at an existing key, append otherwise. -/
def upsertMemoryRow (table : List MemoryRow) (row : MemoryRow) : List MemoryRow :=
  if table.any (memKeyMatch row.session_id row.repository_id row.entity_id) then
    table.map (fun r =>
      if memKeyMatch row.session_id row.repository_id row.entity_id r then row else r)
  else table ++ [row]

/-- One iteration of the `upsertSessionMemory` loop (route.ts 1016-1038):
read the current weight at the key and upsert it incremented by one (one
when absent). -/
def upsertOneMemory (sessionId repositoryId now : String) (t : List MemoryRow)
    (entityId : String) : List MemoryRow :=
  let existing := (t.find? (memKeyMatch sessionId repositoryId entityId)).map
    (fun r => r.weight)
  let nextWeight : Int := match existing with
    | some w => w + 1
    | none => 1
  let row : MemoryRow :=
    { session_id := sessionId, repository_id := repositoryId,
      entity_id := entityId, weight := nextWeight, last_used := now }
  upsertMemoryRow t row

/-- `upsertSessionMemory` (route.ts 1007-1039): the per-entity loop over the
id list. -/
def upsertSessionMemory (table : List MemoryRow) (sessionId repositoryId : String)
    (entityIds : List String) (now : String) : List MemoryRow :=
  entityIds.foldl (upsertOneMemory sessionId repositoryId now) table

/-- Stored weight at a key, as read back by `maybeSingle`. -/
def getStoredWeight (table : List MemoryRow) (sessionId repositoryId entityId : String) :
    Option Int :=
  (table.find? (memKeyMatch sessionId repositoryId entityId)).map (fun r => r.weight)

/-- `detectDominantRepoDomains` (route.ts 1041-1068): token frequency over
name and path of up to 500 entity rows, most frequent first, ties broken by
first-seen order (JavaScript `Map` insertion order plus stable sort). -/
def bumpCount (m : List (String × Nat)) (token : String) : List (String × Nat) :=
  if m.any (fun p => p.1 == token) then
    m.map (fun p => if p.1 == token then (p.1, p.2 + 1) else p)
  else m ++ [(token, 1)]

/-- Frequency-ranked dominant domains of a repository, with its query
event. -/
def detectDominantRepoDomainsT (db : Db) (repositoryId : String) :
    List String × List Event :=
  let rows := ((db.entities.filter (fun p => p.1 == repositoryId)).take 500).map (fun p => p.2)
  let frequency := rows.foldl (fun m entity =>
    (extractDomainTokensFromEntity entity).foldl bumpCount m) []
  (((stableSortDesc (fun p => (p.2 : Int)) frequency).map (fun p => p.1)).take 10,
    [Event.domainScan])

/-! ### Collaborator oracle

Every external call of the route is wrapped in `withTimeout` (route.ts
932-945), which resolves to the supplied fallback on timeout or rejection;
`runOpenAIJson` additionally returns the fallback on HTTP failure or
unparsable content but passes any parsed JSON value through unchecked.  The
oracle fixes the outcome of each call: `timeout` stands for every condition
that produces the fallback, `ok` for a response of the declared shape, and
`broken` for a parsed value whose shape makes the pipeline throw at the
first field access (for example a JSON `null`), which the outer catch then
converts into the generic failure answer. -/

/-- Outcome of one structured LLM call as seen by the route. -/
inductive LlmJson (T : Type) where
  | timeout : LlmJson T
  | broken : LlmJson T
  | ok : T → LlmJson T
deriving DecidableEq

/-- `FrontdeskOutput` (route.ts 513-517), with arbitrary strings since the
route re-validates every field. -/
structure FrontdeskOutput where
  mode : String
  human_message : String
  refined_question : String
deriving DecidableEq

/-- `GojoOutput` (route.ts 499-505), with the intent type as a plain string
since the route only compares it. -/
structure GojoOutput where
  intent_type : String
  intent : String
  objective : String
  keywords : List String
  answer_style : String
deriving DecidableEq

/-- `SukunaOutput` (route.ts 507-511). -/
structure SukunaOutput where
  findings : List String
  unknowns : List String
  constraints : List String
deriving DecidableEq

/-- Outcome of the query-embedding call inside `rerankWithEmbeddings`:
`raise` models a rejected `fetch` (the call is not wrapped in a
try/timeout, so the rejection reaches the outer catch), `unavailable`
models a missing key or non-ok response (empty vector list, no-op rerank),
and `ok` a usable query vector. -/
inductive EmbedOutcome where
  | raise
  | unavailable
  | ok
deriving DecidableEq

/-- Fixed behaviour of every collaborator during one request.  `embedScore`
abstracts the floating-point cosine-plus-positional-prior blend of
route.ts 1192-1200 into an integer key per entity id; claims depend only on
the induced reordering, not on the numeric values. -/
structure Oracle where
  frontdesk : Option FrontdeskOutput
  gojo : LlmJson GojoOutput
  greetingText : Option String
  expansion : LlmJson (List String)
  anchors : Option (List String)
  sukuna : LlmJson SukunaOutput
  yujiText : Option String
  authUser : Option String
  embedQuery : EmbedOutcome
  embedScore : String → Int

/-! ### Request and response shapes -/

/-- Parsed request body; `none` in a field models an absent or non-string
value, which the route maps to the empty string (or a default session id). -/
structure AskBody where
  question : Option String
  repositoryId : Option String
  sessionId : Option String
  chatHistory : List ChatHistoryItem
deriving DecidableEq

/-- One incoming request; `body = none` models a `request.json()` rejection,
which lands in the outer catch. -/
structure AskRequest where
  body : Option AskBody
  authHeader : Option String
deriving DecidableEq

/-- Response of the handler: the answer string, the HTTP status, and the
`debug.mode` marker (empty when the debug payload carries no mode). -/
structure AskResponse where
  answer : String
  status : Nat
  debugMode : String
deriving DecidableEq

/-- Default session id `session_` + (`repositoryId || 'unknown'`)
(route.ts 1308). -/
def defaultSessionId (repositoryId : String) : String :=
  "session_" ++ (if repositoryId == "" then "unknown" else repositoryId)

/-- Response produced by the outer catch (route.ts 1801-1816). -/
def catchResponse : AskResponse × List Event :=
  ({ answer := "Unable to answer right now. Please try again.", status := 500,
     debugMode := "" }, [])

/-! ### Classification helpers (route.ts 1371-1538) -/

/-- Frontdesk fallback message (route.ts 1371-1375). -/
def frontdeskFallbackMessage : String :=
  "Got it. Let me analyze that from your repository context."

/-- Frontdesk fallback object (route.ts 1371-1375). -/
def frontdeskFallback (question : String) : FrontdeskOutput :=
  { mode := "route", human_message := frontdeskFallbackMessage,
    refined_question := question }

/-- Resolved frontdesk output after `withTimeout` (route.ts 1377-1388). -/
def resolveFrontdesk (oracle : Oracle) (question : String) : FrontdeskOutput :=
  oracle.frontdesk.getD (frontdeskFallback question)

/-- Deterministic classifier fallback (route.ts 1441-1447). -/
def gojoFallback (refinedQuestion : String) : GojoOutput :=
  { intent_type := "unclear", intent := "unknown",
    objective := compactText refinedQuestion 120,
    keywords := extractKeywordsFromQuestion refinedQuestion,
    answer_style := "product" }

/-- Canned greeting reply (route.ts 1466-1467). -/
def greetingFallbackMessage : String :=
  "Hi! Happy to help. Ask me what flows are implemented in your product, and I will explain them in product language."

/-- Resolved greeting answer: `runOpenAIText` returns its fallback for an
empty content string, and `withTimeout` returns the same fallback on
timeout (route.ts 1468-1480). -/
def resolveGreeting (oracle : Oracle) : String :=
  match oracle.greetingText with
  | none => greetingFallbackMessage
  | some s => if s == "" then greetingFallbackMessage else s

/-- Modelled from the spec: `isVagueIntent` is called at route.ts 1522 but
is defined nowhere in the provided source.  Section 4.2 of the spec states
the condition verbatim: the classification is vague when the returned
intent string is empty or unknown AND the keyword list is empty or made
only of generic terms.  The intent type is passed at the call site but the
spec's condition does not consult it. -/
def isVagueIntent (intent : String) (_intentType : String) (keywords : List String) : Bool :=
  (jsTrim intent == "" || jsToLower (jsTrim intent) == "unknown") &&
    (keywords.isEmpty || keywords.all (fun k => GENERIC_QUERY_WORDS.contains k))

/-- Vagueness correction applied to the classifier output
(route.ts 1522-1538), producing the corrected classification used
downstream. -/
def applyVaguenessCorrection (gojo : GojoOutput) (refinedQuestion : String)
    (dominantDomains : List String) : GojoOutput :=
  let gojoKeywords := normalizeKeywords gojo.keywords
  let fallbackQuestionKeywords := extractKeywordsFromQuestion refinedQuestion
  let weakGojo := isVagueIntent gojo.intent gojo.intent_type gojoKeywords
  let finalGojoKeywords :=
    if weakGojo then
      (jsDedup (gojoKeywords ++ fallbackQuestionKeywords ++ dominantDomains.take 6)).take 16
    else if gojoKeywords.isEmpty then fallbackQuestionKeywords else gojoKeywords
  if weakGojo then
    { intent_type := "repo_question", intent := "repository_overview",
      objective := "explain major application flows", keywords := finalGojoKeywords,
      answer_style := "product" }
  else { gojo with keywords := finalGojoKeywords }

/-- Resolved keyword expansion (route.ts 1567-1579): the fallback object
carries `finalGojoKeywords`, and the resolved array is normalized either
way.  A `broken` response throws at the `.expanded_keywords` access. -/
def resolveExpansion (oracle : Oracle) (finalGojoKeywords : List String) :
    Option (List String) :=
  match oracle.expansion with
  | LlmJson.broken => none
  | LlmJson.timeout => some (normalizeKeywords finalGojoKeywords)
  | LlmJson.ok xs => some (normalizeKeywords xs)

/-- Resolved flow anchors (route.ts 1070-1103 and 1580-1589): normalized
response anchors when usable, otherwise the dominant domains suffixed with
"flow" (which is also the timeout fallback of both layers). -/
def resolveFlowAnchors (oracle : Oracle) (dominantDomains : List String) : List String :=
  let fallbackAnchors := (dominantDomains.take 6).map (fun domain => domain ++ " flow")
  match oracle.anchors with
  | none => fallbackAnchors
  | some anchors =>
    let normalized := (jsDedup ((anchors.map (fun a => compactText (jsToLower a) 48)).filter
      (fun a => 3 < a.length))).take 8
    if 0 < normalized.length then normalized else fallbackAnchors

/-- Reasoning-stage fallback (route.ts 1673-1677). -/
def sukunaFallback : SukunaOutput :=
  { findings := [], unknowns := ["insufficient context"],
    constraints := ["insufficient structural evidence"] }

/-- Resolved product translation (route.ts 1711-1727): the NARUTO text call
falls back to the deterministic answer on timeout or empty content. -/
def resolveYuji (oracle : Oracle) (deterministicFallback : String) : String :=
  match oracle.yujiText with
  | none => deterministicFallback
  | some s => if s == "" then deterministicFallback else s

/-! ### Orchestrator (route.ts 1301-1817)

The handler is split along its own control flow: `askPOST` performs body
parsing, input validation and authorization; `askValidated` runs the
frontdesk intake and intent classification; `askClassified` branches on the
greeting short-circuit; `askRepoPipeline` is the retrieval/reasoning main
path.  Each stage returns the response together with the ordered list of
pipeline events it caused; a modelled exception routes to `catchResponse`
exactly as the outer try/catch does. -/

/-- Answer returned when retrieval and expansion produced no candidate
entities (route.ts 1662-1671). -/
def noCandidatesAnswer : String :=
  "I could not find enough structural context for this question. Re-run ingestion to rebuild the structure index."

/-- Translation tail of the pipeline (route.ts 1709-1800): deterministic
fallback construction, optional product translation, sanitization, then the
fire-and-forget memory write and embedding backfill. -/
def finishTranslation (oracle : Oracle) (refinedQuestion : String)
    (candidateEntities : List EntityRow) (relationships : List GraphRow)
    (sukuna : SukunaOutput) : AskResponse × List Event :=
  let deterministicFallback := buildDeterministicFallbackAnswer refinedQuestion
    candidateEntities relationships
  let canUseYuji := 0 < sukuna.findings.length
  let yujiAnswerRaw := if canUseYuji then resolveYuji oracle deterministicFallback
    else deterministicFallback
  let yujiAnswer := sanitizeProductAnswer yujiAnswerRaw deterministicFallback
  ({ answer := yujiAnswer, status := 200, debugMode := "" },
    [Event.reasoningCall] ++ (if canUseYuji then [Event.translateCall] else []) ++
      [Event.memoryWrite, Event.backfill])

/-- Reasoning stage (route.ts 1662-1727): empty candidate set short-circuits
to a direct message; a shape-broken reasoning response throws (`none`). -/
def reasoningStage (oracle : Oracle) (refinedQuestion : String)
    (candidateEntities : List EntityRow) (relationships : List GraphRow) :
    Option (AskResponse × List Event) :=
  if candidateEntities.isEmpty then
    some ({ answer := noCandidatesAnswer, status := 200, debugMode := "" }, [])
  else match oracle.sukuna with
    | LlmJson.broken => none
    | LlmJson.timeout =>
      some (finishTranslation oracle refinedQuestion candidateEntities relationships
        sukunaFallback)
    | LlmJson.ok v =>
      some (finishTranslation oracle refinedQuestion candidateEntities relationships v)

/-- Retrieval phase of the main pipeline (route.ts 1509-1660): domain
detection, vagueness correction, session memory, keyword expansion, flow
anchors, keyword retrieval with domain fallback, seed ranking, graph
expansion and reranking.  Returns the candidate entities (capped at 80), the
fetched relationships and the trace, or `none` when a modelled exception is
thrown (shape-broken expansion response, rejected embedding call). -/
def retrievalPhase (oracle : Oracle) (db : Db) (repositoryId sessionId refinedQuestion : String)
    (gojo : GojoOutput) : Option ((List EntityRow × List GraphRow) × List Event) :=
  let dd := detectDominantRepoDomainsT db repositoryId
  let dominantDomains := dd.1
  let correctedGojo := applyVaguenessCorrection gojo refinedQuestion dominantDomains
  let finalGojoKeywords := correctedGojo.keywords
  let mem := readSessionMemoryT db sessionId repositoryId
  let memFetch := retrieveEntitiesByIdsT db repositoryId mem.1
  let memoryEntities := memFetch.1
  match resolveExpansion oracle finalGojoKeywords with
  | none => none
  | some expandedKeywords =>
    let flowAnchors := resolveFlowAnchors oracle dominantDomains
    let anchorTerms := extractAnchorTerms flowAnchors
    let retrievalKeywords := retrievalKeywordsAtCallSite refinedQuestion finalGojoKeywords
      expandedKeywords anchorTerms dominantDomains
    let sessionPriority := ((stableSortDesc (fun x => (x.2 : Int))
      ((memoryEntities.map (fun e => (e, scoreEntityAgainstKeywords e retrievalKeywords))).filter
        (fun x => 0 < x.2))).map (fun x => x.1)).take 20
    let kw := retrieveEntitiesByKeywordsT db repositoryId retrievalKeywords
    let useDomainFallback := kw.1.isEmpty && !dominantDomains.isEmpty
    let fb := if useDomainFallback then
        retrieveEntitiesByKeywordsT db repositoryId (dominantDomains.take 8)
      else (([] : List EntityRow), ([] : List Event))
    let keywordMatched := if useDomainFallback then fb.1 else kw.1
    let merged1 := keywordMatched.foldl (fun m e => mapSet m e.id e)
      ([] : List (String × EntityRow))
    let merged2 := sessionPriority.foldl (fun m e =>
      if m.any (fun p => p.1 == e.id) then m else m ++ [(e.id, e)]) merged1
    let sessionSet := sessionPriority.map (fun e => e.id)
    let seeds := ((stableSortDesc (fun x => (x.2 : Int))
      ((merged2.map (fun p => p.2)).map (fun e =>
        (e, scoreForSeedRanking e retrievalKeywords dominantDomains
          (sessionSet.contains e.id))))).map (fun x => x.1)).take 80
    let eg := expandGraphT db repositoryId (seeds.map (fun e => e.id))
    let expandedEntities := eg.1.1
    let relationships := eg.1.2
    let baseTrace := dd.2 ++ mem.2 ++ memFetch.2 ++ [Event.expandCall, Event.anchorCall] ++
      kw.2 ++ fb.2 ++ eg.2
    let reranked : Option (List EntityRow × List Event) :=
      if expandedEntities.isEmpty then some (expandedEntities, [])
      else match oracle.embedQuery with
        | EmbedOutcome.raise => none
        | EmbedOutcome.unavailable => some (expandedEntities, [])
        | EmbedOutcome.ok =>
          some (stableSortDesc (fun e => oracle.embedScore e.id) expandedEntities,
            [Event.rerankEmbed])
    match reranked with
    | none => none
    | some rr => some ((rr.1.take 80, relationships), baseTrace ++ rr.2)

/-- Main retrieval/reasoning path (route.ts 1509-1800): the retrieval phase
followed by the reasoning stage, with modelled exceptions landing in the
outer catch. -/
def askRepoPipeline (oracle : Oracle) (db : Db) (repositoryId sessionId refinedQuestion : String)
    (gojo : GojoOutput) : AskResponse × List Event :=
  match retrievalPhase oracle db repositoryId sessionId refinedQuestion gojo with
  | none => catchResponse
  | some pr =>
    match reasoningStage oracle refinedQuestion pr.1.1 pr.1.2 with
    | none => catchResponse
    | some r => (r.1, pr.2 ++ r.2)

/-- Post-classification branch (route.ts 1463-1507): the greeting
short-circuit answers conversationally without any retrieval, graph or
reasoning work. -/
def askClassified (oracle : Oracle) (db : Db) (repositoryId sessionId refinedQuestion : String)
    (gojo : GojoOutput) : AskResponse × List Event :=
  if gojo.intent_type == "greeting" then
    ({ answer := resolveGreeting oracle, status := 200,
       debugMode := "greeting_short_circuit" }, [Event.translateCall])
  else askRepoPipeline oracle db repositoryId sessionId refinedQuestion gojo

/-- Frontdesk intake and intent classification (route.ts 1360-1461). -/
def askValidated (oracle : Oracle) (db : Db) (repositoryId sessionId question : String) :
    AskResponse × List Event :=
  let frontdesk := resolveFrontdesk oracle question
  let frontdeskMode := if frontdesk.mode == "reply" then "reply" else "route"
  let refinedQuestion := if jsTrim frontdesk.refined_question != "" then
      jsTrim frontdesk.refined_question
    else question
  let frontdeskMessage := if jsTrim frontdesk.human_message != "" then
      jsTrim frontdesk.human_message
    else frontdeskFallbackMessage
  if frontdeskMode == "reply" then
    ({ answer := frontdeskMessage, status := 200, debugMode := "frontdesk_reply" },
      [Event.frontdeskCall])
  else
    match oracle.gojo with
    | LlmJson.broken => catchResponse
    | LlmJson.timeout =>
      let r := askClassified oracle db repositoryId sessionId refinedQuestion
        (gojoFallback refinedQuestion)
      (r.1, [Event.frontdeskCall, Event.classifyCall] ++ r.2)
    | LlmJson.ok g =>
      let r := askClassified oracle db repositoryId sessionId refinedQuestion g
      (r.1, [Event.frontdeskCall, Event.classifyCall] ++ r.2)

/-- The POST handler (route.ts 1301-1817): body parsing, input validation,
authorization, then the pipeline.  A body-parse rejection lands in the
outer catch. -/
def askPOST (req : AskRequest) (oracle : Oracle) (db : Db) : AskResponse × List Event :=
  match req.body with
  | none => catchResponse
  | some body =>
    let question := jsTrim (body.question.getD "")
    let repositoryId := jsTrim (body.repositoryId.getD "")
    let sessionId := match body.sessionId with
      | some sid => jsTrim sid
      | none => defaultSessionId repositoryId
    if question == "" then
      ({ answer := "Question is required", status := 400, debugMode := "" }, [])
    else if repositoryId == "" then
      ({ answer := "repositoryId is required", status := 400, debugMode := "" }, [])
    else
      let accessToken := match req.authHeader with
        | some h => if strStartsWith h "Bearer " then some (jsDrop h 7) else none
        | none => none
      match accessToken with
      | none => ({ answer := "Unauthorized", status := 401, debugMode := "" }, [])
      | some _ =>
        match oracle.authUser with
        | none => ({ answer := "Unauthorized", status := 401, debugMode := "" }, [])
        | some userId =>
          let orgIds := (db.members.filter (fun m => m.1 == userId)).map (fun m => m.2)
          if orgIds.isEmpty then
            ({ answer := "No organization access", status := 403, debugMode := "" }, [])
          else if !(db.repositories.any (fun r =>
              r.1 == repositoryId && orgIds.contains r.2)) then
            ({ answer := "Repository not accessible", status := 403, debugMode := "" }, [])
          else
            let _historySummary := buildChatHistorySummary body.chatHistory
            askValidated oracle db repositoryId sessionId question

/-! ### Concrete sample data used by witnesses and counterexamples -/

/-- Sample login module entity of spec scenario 2, with the metadata tags
`["login", "oauth", "google"]`. -/
def sampleLoginEntity : EntityRow :=
  { id := "e1", entity_name := "auth/login.ts", entity_type := "module",
    file_path := "auth/login.ts",
    metadata := some { tags := some ["login", "oauth", "google"], keywords := none,
                       snippet := none } }

/-- Sample session module entity, the target endpoint of the sample edge. -/
def sampleSessionEntity : EntityRow :=
  { id := "e2", entity_name := "session.ts", entity_type := "module",
    file_path := "auth/session.ts", metadata := none }

/-- Sample `login.ts -> session.ts` edge of type `uses-module`. -/
def sampleLoginEdge : GraphRow :=
  { source_entity_id := "e1", target_entity_id := "e2",
    relationship_type := "uses-module" }

/-- Oracle in which every soft collaborator times out and the embedding
service is unavailable; authentication succeeds for user `u1`. -/
def oracleAllTimeout : Oracle :=
  { frontdesk := none, gojo := LlmJson.timeout, greetingText := none,
    expansion := LlmJson.timeout, anchors := none, sukuna := LlmJson.timeout,
    yujiText := none, authUser := some "u1",
    embedQuery := EmbedOutcome.unavailable, embedScore := fun _ => 0 }

/-- Classifier output with intent type `greeting`. -/
def greetingGojo : GojoOutput :=
  { intent_type := "greeting", intent := "greet", objective := "",
    keywords := [], answer_style := "product" }

/-- Oracle whose classifier answers `greeting` and everything else times
out. -/
def oracleGreeting : Oracle :=
  { oracleAllTimeout with gojo := LlmJson.ok greetingGojo }

/-- Store with one organization membership and one accessible repository and
nothing else. -/
def tinyDb : Db :=
  { members := [("u1", "org1")], repositories := [("r1", "org1")],
    entities := [], graph := [], sessionMemory := [] }

/-- Store holding the two sample entities and the sample edge of repository
`r1`. -/
def loginDb : Db :=
  { tinyDb with
    entities := [("r1", sampleLoginEntity), ("r1", sampleSessionEntity)],
    graph := [("r1", sampleLoginEdge)] }

/-- Request body with a question and repository id but no session id. -/
def bodyNoSession : AskBody :=
  { question := some "how does it work", repositoryId := some "r1",
    sessionId := none, chatHistory := [] }

/-- Request carrying `bodyNoSession` and a bearer token. -/
def requestNoSession : AskRequest :=
  { body := some bodyNoSession, authHeader := some "Bearer tok" }

/-- Request body with no question field. -/
def bodyNoQuestion : AskBody :=
  { question := none, repositoryId := some "r1", sessionId := some "s1",
    chatHistory := [] }

/-- Request carrying `bodyNoQuestion`. -/
def requestNoQuestion : AskRequest :=
  { body := some bodyNoQuestion, authHeader := some "Bearer tok" }

/-- Classifier output with a known intent and a mixed-case keyword. -/
def sampleNonVagueGojo : GojoOutput :=
  { intent_type := "repo_question", intent := "payments", objective := "explain payments",
    keywords := ["Payment"], answer_style := "product" }

/-- Classifier output with an empty intent and no keywords. -/
def sampleVagueGojo : GojoOutput :=
  { intent_type := "unclear", intent := "", objective := "", keywords := [],
    answer_style := "" }

/-! ### General lemmas -/

/-- A string whose left part is nonempty is nonempty. -/
theorem str_append_ne_empty_left (a b : String) (h : a ≠ "") : a ++ b ≠ "" := by
  intro hab
  apply h
  have hd := congrArg String.data hab
  rw [String.data_append] at hd
  rcases List.append_eq_nil.mp hd with ⟨h1, _⟩
  cases a
  simp_all [String.data]

/-- A string whose right part is nonempty is nonempty. -/
theorem str_append_ne_empty_right (a b : String) (h : b ≠ "") : a ++ b ≠ "" := by
  intro hab
  apply h
  have hd := congrArg String.data hab
  rw [String.data_append] at hd
  rcases List.append_eq_nil.mp hd with ⟨_, h2⟩
  cases b
  simp_all [String.data]

/-- Membership after a JavaScript `Set.add`. -/
theorem mem_jsSetAdd (s : List String) (x y : String) :
    y ∈ jsSetAdd s x ↔ y ∈ s ∨ y = x := by
  unfold jsSetAdd
  split
  next hc =>
    have hx : x ∈ s := List.elem_iff.mp hc
    constructor
    · exact fun h => Or.inl h
    · rintro (h | rfl)
      · exact h
      · exact hx
  next => simp

/-- Membership through the fold that builds a JavaScript `Set`. -/
theorem mem_foldl_jsSetAdd (l : List String) (init : List String) (y : String) :
    y ∈ l.foldl jsSetAdd init ↔ y ∈ init ∨ y ∈ l := by
  induction l generalizing init with
  | nil => simp
  | cons a l ih =>
    simp only [List.foldl_cons, ih, mem_jsSetAdd, List.mem_cons]
    tauto

/-- `jsDedup` preserves membership. -/
theorem mem_jsDedup (l : List String) (y : String) : y ∈ jsDedup l ↔ y ∈ l := by
  unfold jsDedup
  rw [mem_foldl_jsSetAdd]
  simp

/-- Membership through the endpoint-collection fold of `expandGraphT`. -/
theorem mem_foldl_edge_endpoints (rels : List GraphRow) (init : List String) (y : String)
    (h : y ∈ rels.foldl (fun s edge =>
      jsSetAdd (jsSetAdd s edge.source_entity_id) edge.target_entity_id) init) :
    y ∈ init ∨ ∃ g ∈ rels, y = g.source_entity_id ∨ y = g.target_entity_id := by
  induction rels generalizing init with
  | nil => exact Or.inl h
  | cons a l ih =>
    rw [List.foldl_cons] at h
    rcases ih _ h with h1 | ⟨g, hg, hend⟩
    · rcases (mem_jsSetAdd _ _ _).mp h1 with h2 | h2
      · rcases (mem_jsSetAdd _ _ _).mp h2 with h3 | h3
        · exact Or.inl h3
        · exact Or.inr ⟨a, List.mem_cons_self a l, Or.inl h3⟩
      · exact Or.inr ⟨a, List.mem_cons_self a l, Or.inr h2⟩
    · exact Or.inr ⟨g, List.mem_cons_of_mem a hg, hend⟩

/-- The sanitizer never returns an empty string when its fallback is
nonempty: every branch returns either the fallback or the normalized text,
and the latter only when it is nonempty. -/
theorem sanitizeProductAnswer_ne_empty (a f : String) (hf : f ≠ "") :
    sanitizeProductAnswer a f ≠ "" := by
  unfold sanitizeProductAnswer
  simp only []
  split
  · exact hf
  next hcompact =>
    split
    · exact hf
    · simpa using hcompact

/-- The deterministic fallback builder returns a nonempty string on every
branch. -/
theorem buildDeterministicFallbackAnswer_ne_empty (q : String) (es : List EntityRow)
    (rs : List GraphRow) : buildDeterministicFallbackAnswer q es rs ≠ "" := by
  unfold buildDeterministicFallbackAnswer
  split
  · decide
  · simp only []
    split
    · apply str_append_ne_empty_left
      apply str_append_ne_empty_left
      decide
    · split
      · apply str_append_ne_empty_right
        split <;> decide
      · apply str_append_ne_empty_right
        split <;> decide

/-- Exact fallback narrative of the spec-scenario-2 input, computed once and
shared by the C4 theorems. -/
theorem c4_sample_answer_eq :
    buildDeterministicFallbackAnswer "how does login work"
      [sampleLoginEntity, sampleSessionEntity] [sampleLoginEdge] =
    "Sign-in options visible in the implemented flow: credentials-based sign-in. After sign-in is submitted, the system validates identity before granting access. On success, an authenticated session is established so users can access protected areas. Confidence is moderate because the auth flow is inferred from partial but relevant structural evidence." := by
  rfl

/-! ### Claim theorems -/

/-- C2.  The claim states that `sanitizeProductAnswer` returns the fallback
whenever the text contains a path-like token (length greater than 3,
containing a slash).  The code normalizes the text first, and
`normalizeText` discards every slash, so the dedicated path-token check can
never fire: the text "Open /etc/hosts now" contains the path-like token
"/etc/hosts" and no blocklisted term, yet the sanitizer passes it through
(as normalized text) instead of returning the fallback "SAFE". -/
theorem C2_path_check_dead :
    sanitizeProductAnswer "Open /etc/hosts now" "SAFE" = "open etc hosts now" := by
  rfl

/-- C3.  The claim states that the final retrieval keyword set is the
deduplicated union of base keywords, expanded keywords, anchor terms and
dominant domains.  The source defines `buildRetrievalKeywords` with four
parameters but invokes it with five arguments, the refined question first,
so the dominant-domain list binds to no parameter and is dropped: at the
call site the domain "invoices" is missing from the result even though the
four-parameter function as defined would include it (it is not generic, not
a duplicate, and within the cap). -/
theorem C3_call_site_drops_domains :
    "invoices" ∉ retrievalKeywordsAtCallSite "how does payment work" ["payment"]
        ["checkout"] ["billing"] ["invoices"] ∧
    "invoices" ∈ buildRetrievalKeywords ["payment"] ["checkout"] ["billing"] ["invoices"] := by
  exact ⟨by decide, by decide⟩

/-- C4 counterexample.  On the spec-scenario-2 input (one module
`auth/login.ts` tagged `["login","oauth","google"]`, one `uses-module` edge
to `session.ts`), the fallback auth narrative does NOT contain the Google
sign-in sentence (tags are not scanned by `inferAuthCapabilities`) and DOES
contain the validation sentence ("auth" occurs in the file paths), refuting
both containment assertions of the claim. -/
theorem C4_google_absent_validation_present :
    strIncludes (buildDeterministicFallbackAnswer "how does login work"
      [sampleLoginEntity, sampleSessionEntity] [sampleLoginEdge]) "Google sign-in" = false ∧
    strIncludes (buildDeterministicFallbackAnswer "how does login work"
      [sampleLoginEntity, sampleSessionEntity] [sampleLoginEdge])
      "the system validates identity" = true := by
  rw [c4_sample_answer_eq]
  exact ⟨by decide, by decide⟩

/-- C4 amended.  On the spec-scenario-2 input the deterministic fallback
auth narrative consists of the credentials-based sign-in sentence (the
capability scan covers entity name, type and file path, where "login"
occurs, but not metadata tags, so Google sign-in is not detected), the
validation sentence (the token "auth" occurs in the file paths), the
session sentence, and the moderate-confidence closer (edge count 1 < 20). -/
theorem C4_fallback_auth_narrative :
    buildDeterministicFallbackAnswer "how does login work"
      [sampleLoginEntity, sampleSessionEntity] [sampleLoginEdge] =
    "Sign-in options visible in the implemented flow: credentials-based sign-in. After sign-in is submitted, the system validates identity before granting access. On success, an authenticated session is established so users can access protected areas. Confidence is moderate because the auth flow is inferred from partial but relevant structural evidence." :=
  c4_sample_answer_eq

/-- C10.  `buildDeterministicFallbackAnswer` is a pure function of its three
arguments (its embedding is a plain definition with no store or oracle
parameter, matching the absence of any await or fetch in route.ts 806-904)
and returns a nonempty string on every branch: the empty-entity message,
the zero-score low-confidence message, the auth narrative and the generic
stage narrative are all nonempty. -/
theorem C10_fallback_builder_total (q : String) (es : List EntityRow) (rs : List GraphRow) :
    buildDeterministicFallbackAnswer q es rs ≠ "" :=
  buildDeterministicFallbackAnswer_ne_empty q es rs

/-- C10 witness: the builder applied to an empty entity list returns a
nonempty string. -/
theorem C10_fallback_builder_total_witness :
    buildDeterministicFallbackAnswer "how does login work" [] [] ≠ "" :=
  C10_fallback_builder_total "how does login work" [] []

/-- Every entity returned by an id fetch has its id in the requested id
list. -/
theorem mem_retrieveEntitiesByIdsT (db : Db) (repo : String) (ids : List String)
    (e : EntityRow) (h : e ∈ (retrieveEntitiesByIdsT db repo ids).1) : e.id ∈ ids := by
  unfold retrieveEntitiesByIdsT at h
  split at h
  · simp at h
  · obtain ⟨p, hp, hpe⟩ := List.mem_map.mp h
    have hpred := (List.mem_filter.mp hp).2
    have hc := (Bool.and_eq_true _ _ ▸ hpred).2
    rw [hpe] at hc
    exact List.mem_of_mem_take (List.elem_iff.mp hc)

/-- Every edge fetched by `expandGraphT` is incident to the seed set. -/
theorem expandGraphT_edges_incident (db : Db) (repo : String) (S : List String)
    (g : GraphRow) (hg : g ∈ (expandGraphT db repo S).1.2) :
    g.source_entity_id ∈ S ∨ g.target_entity_id ∈ S := by
  unfold expandGraphT at hg
  split at hg
  · simp at hg
  · simp only [] at hg
    rcases List.mem_append.mp hg with h | h
    · obtain ⟨p, hp, hpe⟩ := List.mem_map.mp h
      have hpred := (List.mem_filter.mp (List.mem_of_mem_take hp)).2
      have hc := (Bool.and_eq_true _ _ ▸ hpred).2
      rw [hpe] at hc
      exact Or.inl (List.elem_iff.mp hc)
    · obtain ⟨p, hp, hpe⟩ := List.mem_map.mp h
      have hpred := (List.mem_filter.mp (List.mem_of_mem_take hp)).2
      have hc := (Bool.and_eq_true _ _ ▸ hpred).2
      rw [hpe] at hc
      exact Or.inr (List.elem_iff.mp hc)

/-- C6.  Graph expansion is single-hop: every returned entity is a seed or
an endpoint of a fetched edge, every fetched edge is incident to the seed
set, and an empty seed set returns empty results with no query event. -/
theorem C6_expand_single_hop (db : Db) (repo : String) (S : List String) :
    (∀ e ∈ (expandGraphT db repo S).1.1,
        e.id ∈ S ∨ ∃ g ∈ (expandGraphT db repo S).1.2,
          e.id = g.source_entity_id ∨ e.id = g.target_entity_id) ∧
    (∀ g ∈ (expandGraphT db repo S).1.2,
        g.source_entity_id ∈ S ∨ g.target_entity_id ∈ S) ∧
    (S = [] → expandGraphT db repo S = (([], []), [])) := by
  refine ⟨?_, expandGraphT_edges_incident db repo S, ?_⟩
  · intro e he
    by_cases hS : S.isEmpty
    · unfold expandGraphT at he
      rw [if_pos hS] at he
      simp at he
    · have hrel : (expandGraphT db repo S).1.2 =
          ((db.graph.filter (fun p =>
            p.1 == repo && S.contains p.2.source_entity_id)).take 300).map (fun p => p.2) ++
          ((db.graph.filter (fun p =>
            p.1 == repo && S.contains p.2.target_entity_id)).take 300).map (fun p => p.2) := by
        unfold expandGraphT
        rw [if_neg hS]
      have hent : (expandGraphT db repo S).1.1 =
          (retrieveEntitiesByIdsT db repo
            (((expandGraphT db repo S).1.2).foldl (fun s edge =>
              jsSetAdd (jsSetAdd s edge.source_entity_id) edge.target_entity_id)
              (jsDedup S))).1 := by
        conv_lhs => unfold expandGraphT
        rw [if_neg hS, hrel]
      rw [hent] at he
      have hid := mem_retrieveEntitiesByIdsT _ _ _ _ he
      rcases mem_foldl_edge_endpoints _ _ _ hid with h | ⟨g, hg, hend⟩
      · exact Or.inl ((mem_jsDedup S e.id).mp h)
      · exact Or.inr ⟨g, hg, hend⟩
  · intro hS
    subst hS
    rfl

/-- Characterization of the session-memory key predicate. -/
theorem memKeyMatch_iff (a b c : String) (x : MemoryRow) :
    memKeyMatch a b c x = true ↔
      x.session_id = a ∧ x.repository_id = b ∧ x.entity_id = c := by
  simp [memKeyMatch, and_assoc]

/-- Rewriting `find?` over the in-place replacement performed by a matching
upsert: when the replacing row itself satisfies the predicate, the first
match becomes that row. -/
theorem find?_map_replace (p : MemoryRow → Bool) (row : MemoryRow) (hrow : p row = true)
    (t : List MemoryRow) :
    (t.map (fun r => if p r then row else r)).find? p =
      if t.any p then some row else none := by
  induction t with
  | nil => simp
  | cons h rest ih =>
    simp only [List.map_cons, List.any_cons]
    by_cases hp : p h
    · rw [show (if p h then row else h) = row from by simp [hp]]
      rw [List.find?_cons_of_pos _ hrow]
      simp [hp]
    · rw [show (if p h then row else h) = h from by simp [hp]]
      rw [List.find?_cons_of_neg _ (by simp [hp])]
      simp only [ih]
      simp [hp]

/-- Rewriting `find?` over an in-place replacement that only touches rows of
a disjoint key: first matches of the observed predicate are untouched. -/
theorem find?_map_replace_other (p q : MemoryRow → Bool) (row : MemoryRow)
    (hprow : p row = false) (hdisj : ∀ x, q x = true → p x = false)
    (t : List MemoryRow) :
    (t.map (fun r => if q r then row else r)).find? p = t.find? p := by
  induction t with
  | nil => simp
  | cons h rest ih =>
    simp only [List.map_cons]
    by_cases hq : q h
    · have hph := hdisj h hq
      rw [show (if q h then row else h) = row from by simp [hq]]
      rw [List.find?_cons_of_neg _ (by simp [hprow]),
        List.find?_cons_of_neg _ (by simp [hph])]
      exact ih
    · rw [show (if q h then row else h) = h from by simp [hq]]
      by_cases hph : p h
      · rw [List.find?_cons_of_pos _ hph, List.find?_cons_of_pos _ hph]
      · rw [List.find?_cons_of_neg _ (by simp [hph]),
          List.find?_cons_of_neg _ (by simp [hph])]
        exact ih

/-- After upserting a row, the first match of its own key is that row. -/
theorem find?_upsertMemoryRow_self (t : List MemoryRow) (row : MemoryRow) :
    (upsertMemoryRow t row).find?
      (memKeyMatch row.session_id row.repository_id row.entity_id) = some row := by
  have hrow : memKeyMatch row.session_id row.repository_id row.entity_id row = true := by
    simp [memKeyMatch]
  unfold upsertMemoryRow
  split
  next hany => rw [find?_map_replace _ _ hrow, if_pos hany]
  next hany =>
    rw [List.find?_append]
    have hnone : t.find? (memKeyMatch row.session_id row.repository_id row.entity_id) =
        none := by
      rw [List.find?_eq_none]
      intro x hx hpx
      exact hany (List.any_eq_true.mpr ⟨x, hx, hpx⟩)
    simp [hnone, hrow]

/-- Upserting a row of a different key leaves the observed key's first match
unchanged. -/
theorem find?_upsertMemoryRow_other (t : List MemoryRow) (row : MemoryRow)
    (sid rid eid : String)
    (hne : ¬(row.session_id = sid ∧ row.repository_id = rid ∧ row.entity_id = eid)) :
    (upsertMemoryRow t row).find? (memKeyMatch sid rid eid) =
      t.find? (memKeyMatch sid rid eid) := by
  have hprow : memKeyMatch sid rid eid row = false := by
    rw [Bool.eq_false_iff]
    intro hc
    exact hne ((memKeyMatch_iff sid rid eid row).mp hc)
  have hdisj : ∀ x, memKeyMatch row.session_id row.repository_id row.entity_id x = true →
      memKeyMatch sid rid eid x = false := by
    intro x hx
    obtain ⟨h1, h2, h3⟩ := (memKeyMatch_iff _ _ _ x).mp hx
    rw [Bool.eq_false_iff]
    intro hc
    obtain ⟨g1, g2, g3⟩ := (memKeyMatch_iff sid rid eid x).mp hc
    exact hne ⟨h1 ▸ g1, h2 ▸ g2, h3 ▸ g3⟩
  unfold upsertMemoryRow
  split
  · exact find?_map_replace_other _ _ _ hprow hdisj t
  · rw [List.find?_append]
    cases hfind : t.find? (memKeyMatch sid rid eid) <;> simp [hprow]

/-- One memory upsert at an entity id sets the stored weight at that key to
the prior weight plus one (one when absent). -/
theorem getStoredWeight_upsertOne_self (sid rid now : String) (t : List MemoryRow)
    (eid : String) :
    getStoredWeight (upsertOneMemory sid rid now t eid) sid rid eid =
      some ((getStoredWeight t sid rid eid).getD 0 + 1) := by
  cases hfind : t.find? (memKeyMatch sid rid eid) with
  | none =>
    have hself := find?_upsertMemoryRow_self t
      { session_id := sid, repository_id := rid, entity_id := eid, weight := 1,
        last_used := now }
    simp only [upsertOneMemory, getStoredWeight, hfind, Option.map_none'] at hself ⊢
    rw [hself]
    rfl
  | some r =>
    have hself := find?_upsertMemoryRow_self t
      { session_id := sid, repository_id := rid, entity_id := eid, weight := r.weight + 1,
        last_used := now }
    simp only [upsertOneMemory, getStoredWeight, hfind, Option.map_some'] at hself ⊢
    rw [hself]
    rfl

/-- A memory upsert at a different entity id does not change the stored
weight at the observed key. -/
theorem getStoredWeight_upsertOne_other (sid rid now : String) (t : List MemoryRow)
    (eid e : String) (hne : e ≠ eid) :
    getStoredWeight (upsertOneMemory sid rid now t e) sid rid eid =
      getStoredWeight t sid rid eid := by
  unfold upsertOneMemory getStoredWeight
  rw [find?_upsertMemoryRow_other]
  intro hc
  exact hne hc.2.2

/-- A sequence of memory upserts avoiding an entity id does not change the
stored weight at that key. -/
theorem getStoredWeight_upsert_not_mem (table : List MemoryRow) (sid rid now : String)
    (ids : List String) (eid : String) (h : eid ∉ ids) :
    getStoredWeight (upsertSessionMemory table sid rid ids now) sid rid eid =
      getStoredWeight table sid rid eid := by
  unfold upsertSessionMemory
  induction ids generalizing table with
  | nil => rfl
  | cons a l ih =>
    rw [List.foldl_cons]
    rw [ih (upsertOneMemory sid rid now table a) (fun hc => h (List.mem_cons_of_mem a hc))]
    exact getStoredWeight_upsertOne_other sid rid now table eid a
      (fun hc => h (hc ▸ List.mem_cons_self a l))

/-- C7.  A session-memory write whose id list contains the entity id exactly
once sets the stored weight at `(sessionId, repositoryId, entityId)` to the
prior stored weight plus exactly one, or to one when no record existed;
hence repeated writes strictly increase the weight by one per call and the
weight never decreases. -/
theorem C7_session_memory_weight_increment (table : List MemoryRow)
    (sid rid eid : String) (ids : List String) (now : String)
    (h : ids.count eid = 1) :
    getStoredWeight (upsertSessionMemory table sid rid ids now) sid rid eid =
      some ((getStoredWeight table sid rid eid).getD 0 + 1) := by
  have hmem : eid ∈ ids := List.count_pos_iff.mp (by omega)
  obtain ⟨l1, l2, rfl⟩ := List.append_of_mem hmem
  rw [List.count_append, List.count_cons_self] at h
  have h1 : eid ∉ l1 := List.count_eq_zero.mp (by omega)
  have h2 : eid ∉ l2 := List.count_eq_zero.mp (by omega)
  have hsplit : upsertSessionMemory table sid rid (l1 ++ eid :: l2) now =
      upsertSessionMemory
        (upsertOneMemory sid rid now (upsertSessionMemory table sid rid l1 now) eid)
        sid rid l2 now := by
    unfold upsertSessionMemory
    rw [List.foldl_append, List.foldl_cons]
  rw [hsplit, getStoredWeight_upsert_not_mem _ _ _ _ _ _ h2,
    getStoredWeight_upsertOne_self, getStoredWeight_upsert_not_mem _ _ _ _ _ _ h1]

/-- C7 witness: a first write of entity `e1` into an empty store yields
stored weight one. -/
theorem C7_session_memory_weight_increment_witness :
    (["e1"].count "e1" = 1) ∧
    getStoredWeight (upsertSessionMemory [] "s1" "r1" ["e1"] "t0") "s1" "r1" "e1" =
      some 1 := by
  refine ⟨by decide, ?_⟩
  rw [C7_session_memory_weight_increment [] "s1" "r1" "e1" ["e1"] "t0" (by decide)]
  rfl

/-- C6 witness: in the sample store, expanding from seed `e1` returns the
session entity, whose id is an endpoint of a fetched edge incident to the
seed set. -/
theorem C6_expand_single_hop_witness :
    sampleSessionEntity.id ∈ (["e1"] : List String) ∨
      ∃ g ∈ (expandGraphT loginDb "r1" ["e1"]).1.2,
        sampleSessionEntity.id = g.source_entity_id ∨
          sampleSessionEntity.id = g.target_entity_id :=
  (C6_expand_single_hop loginDb "r1" ["e1"]).1 sampleSessionEntity (by decide)

/-- A validated request reaches `askValidated` with the trimmed question,
trimmed repository id and the session id (trimmed, or defaulted when
absent). -/
theorem askPOST_reaches_validated (req : AskRequest) (oracle : Oracle) (db : Db)
    (body : AskBody) (authH userId : String)
    (hbody : req.body = some body)
    (hq : jsTrim (body.question.getD "") ≠ "")
    (hr : jsTrim (body.repositoryId.getD "") ≠ "")
    (hauth : req.authHeader = some authH)
    (hbearer : strStartsWith authH "Bearer " = true)
    (huser : oracle.authUser = some userId)
    (horg : ((db.members.filter (fun m => m.1 == userId)).map (fun m => m.2)).isEmpty = false)
    (hrepo : (db.repositories.any (fun r => r.1 == jsTrim (body.repositoryId.getD "") &&
      ((db.members.filter (fun m => m.1 == userId)).map (fun m => m.2)).contains r.2)) = true) :
    askPOST req oracle db = askValidated oracle db (jsTrim (body.repositoryId.getD ""))
      (match body.sessionId with
       | some sid => jsTrim sid
       | none => defaultSessionId (jsTrim (body.repositoryId.getD "")))
      (jsTrim (body.question.getD "")) := by
  have h1 : (jsTrim (body.question.getD "") == "") = false := by
    simpa using hq
  have h2 : (jsTrim (body.repositoryId.getD "") == "") = false := by
    simpa using hr
  unfold askPOST
  rw [hbody]
  simp only [h1, h2, hauth, hbearer, huser, horg, hrepo, Bool.false_eq_true, if_false,
    if_true, Bool.not_true, ite_true, ite_false]

/-- When the frontdesk routes and the classifier returns intent type
`greeting`, the validated pipeline short-circuits to the conversational
greeting reply, with exactly the frontdesk, classification and translation
calls in its trace. -/
theorem askValidated_greeting (oracle : Oracle) (db : Db)
    (repositoryId sessionId question : String) (g : GojoOutput)
    (hmode : (resolveFrontdesk oracle question).mode ≠ "reply")
    (hgojo : oracle.gojo = LlmJson.ok g)
    (hgreet : g.intent_type = "greeting") :
    askValidated oracle db repositoryId sessionId question =
      ({ answer := resolveGreeting oracle, status := 200,
         debugMode := "greeting_short_circuit" },
        [Event.frontdeskCall, Event.classifyCall, Event.translateCall]) := by
  have h3 : ((resolveFrontdesk oracle question).mode == "reply") = false := by
    simpa using hmode
  unfold askValidated askClassified
  simp [h3, hgojo, hgreet]

/-- C8.  On any validated request whose classification yields intent type
`greeting` (with the frontdesk routing rather than replying), the pipeline
short-circuits: the trace contains no entity query, no graph query, no
reasoning call, no domain scan and no session-memory read, the debug mode
records the greeting short-circuit, and the answer is the conversational
greeting reply. -/
theorem C8_greeting_short_circuit (req : AskRequest) (oracle : Oracle) (db : Db)
    (body : AskBody) (g : GojoOutput) (authH userId : String)
    (hbody : req.body = some body)
    (hq : jsTrim (body.question.getD "") ≠ "")
    (hr : jsTrim (body.repositoryId.getD "") ≠ "")
    (hauth : req.authHeader = some authH)
    (hbearer : strStartsWith authH "Bearer " = true)
    (huser : oracle.authUser = some userId)
    (horg : ((db.members.filter (fun m => m.1 == userId)).map (fun m => m.2)).isEmpty = false)
    (hrepo : (db.repositories.any (fun r => r.1 == jsTrim (body.repositoryId.getD "") &&
      ((db.members.filter (fun m => m.1 == userId)).map (fun m => m.2)).contains r.2)) = true)
    (hmode : (resolveFrontdesk oracle (jsTrim (body.question.getD ""))).mode ≠ "reply")
    (hgojo : oracle.gojo = LlmJson.ok g)
    (hgreet : g.intent_type = "greeting") :
    Event.entityQuery ∉ (askPOST req oracle db).2 ∧
    Event.graphQuery ∉ (askPOST req oracle db).2 ∧
    Event.reasoningCall ∉ (askPOST req oracle db).2 ∧
    Event.domainScan ∉ (askPOST req oracle db).2 ∧
    Event.memoryRead ∉ (askPOST req oracle db).2 ∧
    (askPOST req oracle db).1.debugMode = "greeting_short_circuit" ∧
    (askPOST req oracle db).1.answer = resolveGreeting oracle := by
  have heq : askPOST req oracle db =
      ({ answer := resolveGreeting oracle, status := 200,
         debugMode := "greeting_short_circuit" },
        [Event.frontdeskCall, Event.classifyCall, Event.translateCall]) := by
    rw [askPOST_reaches_validated req oracle db body authH userId hbody hq hr hauth
      hbearer huser horg hrepo]
    exact askValidated_greeting oracle db _ _ _ g hmode hgojo hgreet
  rw [heq]
  refine ⟨?_, ?_, ?_, ?_, ?_, rfl, rfl⟩ <;> simp

/-- C8 witness: the concrete greeting request against the tiny store
discharges every hypothesis of the short-circuit theorem. -/
theorem C8_greeting_short_circuit_witness :
    Event.entityQuery ∉ (askPOST requestNoSession oracleGreeting tinyDb).2 ∧
    Event.graphQuery ∉ (askPOST requestNoSession oracleGreeting tinyDb).2 ∧
    Event.reasoningCall ∉ (askPOST requestNoSession oracleGreeting tinyDb).2 ∧
    Event.domainScan ∉ (askPOST requestNoSession oracleGreeting tinyDb).2 ∧
    Event.memoryRead ∉ (askPOST requestNoSession oracleGreeting tinyDb).2 ∧
    (askPOST requestNoSession oracleGreeting tinyDb).1.debugMode =
      "greeting_short_circuit" ∧
    (askPOST requestNoSession oracleGreeting tinyDb).1.answer =
      resolveGreeting oracleGreeting :=
  C8_greeting_short_circuit requestNoSession oracleGreeting tinyDb bodyNoSession
    greetingGojo "Bearer tok" "u1" rfl (by decide) (by decide) rfl (by decide) rfl
    (by decide) (by decide) (by decide) rfl rfl

/-- The first match of a character-level `dropWhile` fails the predicate. -/
theorem dropWhile_eq_cons_head_false {p : Char → Bool} {l : List Char} {c : Char}
    {cs : List Char} (h : l.dropWhile p = c :: cs) : p c = false := by
  induction l with
  | nil => simp at h
  | cons a as ih =>
    rw [List.dropWhile_cons] at h
    split at h
    · exact ih h
    · next hpa =>
      injection h with h1 _
      subst h1
      simpa using hpa

/-- Prepending `session_` to an already trimmed character list yields a
trimmed list: the JavaScript trim is the identity on it. -/
theorem trimChars_session (t : List Char) (y : List Char) (ht : t = trimChars y) :
    trimChars ("session_".data ++ t) = "session_".data ++ t := by
  have hs : "session_".data = 's' :: "ession_".data := rfl
  have hA : ("session_".data ++ t).dropWhile Char.isWhitespace = "session_".data ++ t := by
    rw [hs]
    rw [List.cons_append, List.dropWhile_cons]
    simp
  have hrevT : t.reverse = (((y.dropWhile Char.isWhitespace).reverse).dropWhile
      Char.isWhitespace) := by
    rw [ht]
    unfold trimChars
    rw [List.reverse_reverse]
  have hC : ((t.reverse ++ "session_".data.reverse)).dropWhile Char.isWhitespace =
      t.reverse ++ "session_".data.reverse := by
    cases hcase : t.reverse with
    | nil =>
      simp only [List.nil_append]
      have hrev : "session_".data.reverse = '_' :: "session".data.reverse := by decide
      rw [hrev, List.dropWhile_cons]
      simp
    | cons c cs =>
      have hc : Char.isWhitespace c = false := by
        apply dropWhile_eq_cons_head_false (l := (y.dropWhile Char.isWhitespace).reverse)
        rw [← hrevT, hcase]
      rw [List.cons_append, List.dropWhile_cons, hc]
      simp
  unfold trimChars
  rw [hA, List.reverse_append, hC, List.reverse_append, List.reverse_reverse,
    List.reverse_reverse]

/-- The default session id derived from a trimmed repository id is itself
invariant under trimming. -/
theorem jsTrim_session_prepend (x : String) :
    jsTrim ("session_" ++ jsTrim x) = "session_" ++ jsTrim x := by
  unfold jsTrim
  have hdata : ("session_" ++ String.mk (trimChars x.data)).data =
      "session_".data ++ trimChars x.data := by
    rw [String.data_append]
  rw [hdata, trimChars_session (trimChars x.data) x.data rfl]
  apply String.ext
  rw [String.data_append]

/-- C9 counterexample.  A request that carries a question and a repository
id but no session id is not rejected: the handler answers with status 200
and performs pipeline work (classification and entity retrieval both appear
in the trace), contradicting the claim that a missing session id is
rejected immediately with no pipeline work. -/
theorem C9_missing_session_not_rejected :
    (askPOST requestNoSession oracleAllTimeout tinyDb).1.status = 200 ∧
    Event.classifyCall ∈ (askPOST requestNoSession oracleAllTimeout tinyDb).2 ∧
    Event.entityQuery ∈ (askPOST requestNoSession oracleAllTimeout tinyDb).2 := by
  refine ⟨by decide, by decide, by decide⟩

/-- C9 amended.  A missing or empty question is rejected immediately with
"Question is required" and an empty trace; with a question present, a
missing or empty repository id is rejected immediately with "repositoryId
is required" and an empty trace; a missing session id is NOT rejected: the
handler behaves exactly as if the derived default session id
(`session_` followed by the repository id, or `session_unknown`) had been
supplied. -/
theorem C9_input_validation (req : AskRequest) (oracle : Oracle) (db : Db) (body : AskBody)
    (hbody : req.body = some body) :
    (jsTrim (body.question.getD "") = "" →
      askPOST req oracle db =
        ({ answer := "Question is required", status := 400, debugMode := "" }, [])) ∧
    (jsTrim (body.question.getD "") ≠ "" → jsTrim (body.repositoryId.getD "") = "" →
      askPOST req oracle db =
        ({ answer := "repositoryId is required", status := 400, debugMode := "" }, [])) ∧
    (body.sessionId = none →
      askPOST req oracle db =
        askPOST { req with body := some { body with
          sessionId := some (defaultSessionId (jsTrim (body.repositoryId.getD ""))) } }
          oracle db) := by
  refine ⟨?_, ?_, ?_⟩
  · intro hq
    unfold askPOST
    rw [hbody]
    simp [hq]
  · intro hq hr
    have h1 : (jsTrim (body.question.getD "") == "") = false := by simpa using hq
    unfold askPOST
    rw [hbody]
    simp [h1, hr]
  · intro hsid
    have hd : jsTrim (defaultSessionId (jsTrim (body.repositoryId.getD ""))) =
        defaultSessionId (jsTrim (body.repositoryId.getD "")) := by
      unfold defaultSessionId
      by_cases hrE : (jsTrim (body.repositoryId.getD "") == "") = true
      · simp only [hrE, if_true]
        decide
      · simp only [Bool.not_eq_true] at hrE
        simp only [hrE, ite_false]
        exact jsTrim_session_prepend (body.repositoryId.getD "")
    conv_lhs => unfold askPOST
    conv_rhs => unfold askPOST
    rw [hbody]
    simp only [hsid, hd]

/-- C9 witness: the concrete question-less request is rejected with status
400 and an empty trace. -/
theorem C9_input_validation_witness :
    jsTrim (bodyNoQuestion.question.getD "") = "" ∧
    askPOST requestNoQuestion oracleAllTimeout tinyDb =
      ({ answer := "Question is required", status := 400, debugMode := "" }, []) :=
  ⟨by decide,
    (C9_input_validation requestNoQuestion oracleAllTimeout tinyDb bodyNoQuestion rfl).1
      (by decide)⟩

/-- C5 counterexample.  With a non-vague classification whose keyword list
is `["Payment"]`, the output used downstream is not the classification
unchanged: the override condition does not hold, yet the keywords become
the normalized `["payment"]`. -/
theorem C5_keywords_not_unchanged :
    isVagueIntent sampleNonVagueGojo.intent sampleNonVagueGojo.intent_type
      (normalizeKeywords sampleNonVagueGojo.keywords) = false ∧
    (applyVaguenessCorrection sampleNonVagueGojo "how does payment work" []).keywords ≠
      sampleNonVagueGojo.keywords := by
  exact ⟨by decide, by decide⟩

/-- C5 amended (the vagueness predicate `isVagueIntent` is not present in
the provided source and is modelled from the spec).  When the classification
is vague (empty/unknown intent and empty-or-all-generic keywords), the
output is overridden to intent `repository_overview` with objective
"explain major application flows", and every downstream keyword comes from
the original normalized keywords, the question tokens, or the top dominant
domains; otherwise intent, objective, intent type and answer style are kept,
while the keywords are normalized and, when empty after normalization,
reseeded from the question tokens. -/
theorem C5_vagueness_correction (gojo : GojoOutput) (q : String) (domains : List String) :
    (isVagueIntent gojo.intent gojo.intent_type (normalizeKeywords gojo.keywords) = true →
      (applyVaguenessCorrection gojo q domains).intent = "repository_overview" ∧
      (applyVaguenessCorrection gojo q domains).objective =
        "explain major application flows" ∧
      (applyVaguenessCorrection gojo q domains).intent_type = "repo_question" ∧
      ∀ k ∈ (applyVaguenessCorrection gojo q domains).keywords,
        k ∈ normalizeKeywords gojo.keywords ∨ k ∈ extractKeywordsFromQuestion q ∨
          k ∈ domains.take 6) ∧
    (isVagueIntent gojo.intent gojo.intent_type (normalizeKeywords gojo.keywords) = false →
      (applyVaguenessCorrection gojo q domains).intent = gojo.intent ∧
      (applyVaguenessCorrection gojo q domains).objective = gojo.objective ∧
      (applyVaguenessCorrection gojo q domains).intent_type = gojo.intent_type ∧
      (applyVaguenessCorrection gojo q domains).answer_style = gojo.answer_style ∧
      (applyVaguenessCorrection gojo q domains).keywords =
        (if (normalizeKeywords gojo.keywords).isEmpty then extractKeywordsFromQuestion q
         else normalizeKeywords gojo.keywords)) := by
  constructor
  · intro hv
    unfold applyVaguenessCorrection
    simp only [hv, if_true]
    refine ⟨trivial, trivial, trivial, ?_⟩
    intro k hk
    have hk2 := (mem_jsDedup _ k).mp (List.mem_of_mem_take hk)
    rcases List.mem_append.mp hk2 with hk3 | hk3
    · rcases List.mem_append.mp hk3 with hk4 | hk4
      · exact Or.inl hk4
      · exact Or.inr (Or.inl hk4)
    · exact Or.inr (Or.inr hk3)
  · intro hv
    unfold applyVaguenessCorrection
    simp only [hv, Bool.false_eq_true, if_false]
    exact ⟨trivial, trivial, trivial, trivial, by trivial⟩

/-- C5 witness: the concrete vague classification triggers the override. -/
theorem C5_vagueness_correction_witness :
    isVagueIntent sampleVagueGojo.intent sampleVagueGojo.intent_type
      (normalizeKeywords sampleVagueGojo.keywords) = true ∧
    ((applyVaguenessCorrection sampleVagueGojo "how does checkout work"
        ["billing"]).intent = "repository_overview" ∧
      (applyVaguenessCorrection sampleVagueGojo "how does checkout work"
        ["billing"]).objective = "explain major application flows" ∧
      (applyVaguenessCorrection sampleVagueGojo "how does checkout work"
        ["billing"]).intent_type = "repo_question" ∧
      ∀ k ∈ (applyVaguenessCorrection sampleVagueGojo "how does checkout work"
          ["billing"]).keywords,
        k ∈ normalizeKeywords sampleVagueGojo.keywords ∨
          k ∈ extractKeywordsFromQuestion "how does checkout work" ∨
          k ∈ (["billing"] : List String).take 6) :=
  ⟨by decide,
    (C5_vagueness_correction sampleVagueGojo "how does checkout work" ["billing"]).1
      (by decide)⟩

/-- The greeting reply is never empty: an empty or missing LLM text resolves
to the canned greeting. -/
theorem resolveGreeting_ne_empty (oracle : Oracle) : resolveGreeting oracle ≠ "" := by
  unfold resolveGreeting
  split
  · decide
  · split
    · decide
    · next hs => simpa using hs

/-- The translation tail always produces a nonempty answer: the sanitizer
falls back to the deterministic narrative, which is nonempty. -/
theorem finishTranslation_answer_ne_empty (oracle : Oracle) (q : String)
    (cands : List EntityRow) (rels : List GraphRow) (suk : SukunaOutput) :
    (finishTranslation oracle q cands rels suk).1.answer ≠ "" := by
  unfold finishTranslation
  exact sanitizeProductAnswer_ne_empty _ _
    (buildDeterministicFallbackAnswer_ne_empty q cands rels)

/-- Every non-thrown result of the reasoning stage carries a nonempty
answer. -/
theorem reasoningStage_answer_ne_empty (oracle : Oracle) (q : String)
    (cands : List EntityRow) (rels : List GraphRow) (r : AskResponse × List Event)
    (h : reasoningStage oracle q cands rels = some r) : r.1.answer ≠ "" := by
  unfold reasoningStage at h
  split at h
  · cases h
    decide
  · split at h
    · cases h
    · cases h
      exact finishTranslation_answer_ne_empty oracle q cands rels sukunaFallback
    · cases h
      exact finishTranslation_answer_ne_empty oracle q cands rels _

/-- The main pipeline always produces a nonempty answer. -/
theorem askRepoPipeline_answer_ne_empty (oracle : Oracle) (db : Db)
    (rid sid q : String) (gojo : GojoOutput) :
    (askRepoPipeline oracle db rid sid q gojo).1.answer ≠ "" := by
  unfold askRepoPipeline
  split
  · decide
  · split
    · decide
    · next r heq => exact reasoningStage_answer_ne_empty oracle q _ _ r heq

/-- The post-classification branch always produces a nonempty answer. -/
theorem askClassified_answer_ne_empty (oracle : Oracle) (db : Db)
    (rid sid q : String) (g : GojoOutput) :
    (askClassified oracle db rid sid q g).1.answer ≠ "" := by
  unfold askClassified
  split
  · exact resolveGreeting_ne_empty oracle
  · exact askRepoPipeline_answer_ne_empty oracle db rid sid q g

/-- The validated pipeline always produces a nonempty answer. -/
theorem askValidated_answer_ne_empty (oracle : Oracle) (db : Db)
    (rid sid q : String) : (askValidated oracle db rid sid q).1.answer ≠ "" := by
  by_cases hmode : ((resolveFrontdesk oracle q).mode == "reply") = true
  · unfold askValidated
    simp only [hmode, if_true, ite_true, beq_self_eq_true]
    split
    · next hs => simpa using hs
    · decide
  · have hmode2 : ((resolveFrontdesk oracle q).mode == "reply") = false := by
      simpa using hmode
    have hrr : (("route" : String) == "reply") = false := by decide
    unfold askValidated
    simp only [hmode2, Bool.false_eq_true, if_false, ite_false, hrr]
    cases hg : oracle.gojo with
    | broken =>
      show catchResponse.1.answer ≠ ""
      decide
    | timeout => exact askClassified_answer_ne_empty oracle db rid sid _ _
    | ok g => exact askClassified_answer_ne_empty oracle db rid sid _ _

/-- C1.  For every request, every collaborator behaviour (timeout, broken
response shape, rejection or total failure of the reasoning, classification,
expansion and embedding collaborators) and every store state, the handler
returns a nonempty answer string; since the embedding is a total function
whose modelled exceptions all resolve to the generic catch answer, no
exception reaches the caller. -/
theorem C1_pipeline_total_nonempty (req : AskRequest) (oracle : Oracle) (db : Db) :
    (askPOST req oracle db).1.answer ≠ "" := by
  unfold askPOST
  split
  · decide
  · simp only []
    split
    · decide
    · split
      · decide
      · split
        · decide
        · split
          · decide
          · split
            · decide
            · split
              · decide
              · exact askValidated_answer_ne_empty _ _ _ _ _

/-- C1 witness: the concrete all-timeout request receives a nonempty
answer. -/
theorem C1_pipeline_total_nonempty_witness :
    (askPOST requestNoSession oracleAllTimeout tinyDb).1.answer ≠ "" :=
  C1_pipeline_total_nonempty requestNoSession oracleAllTimeout tinyDb

end ProdCrack
